import Mathlib

/-!
# Low-power blink demo: `src/main.cpp`

A shallow embedding of the firmware's three functions and two callbacks.

* `setup` (lines 41-51) is a function from the result of `osThreadCreate` to the new
  program state and the list of calls it makes.
* `appThreadHandler` (lines 67-106) never returns, so it is embedded as a
  statement-by-statement step function `exec` over a program counter `Pc` (one value per
  statement of the handler), and `appThreadHandler inputs s0 n` is the state and the
  list of calls after `n` statements.  What the environment hands back at each statement
  (the value of `rtc.getEpoch()`, success or failure of the call, the wake source that
  ends `deepSleep`, the interrupts that fire meanwhile) is an `Input`.
* `onAlarmWakeUpCallback` (lines 113-115) and `onButtonPressCallback` (lines 121-122)
  are functions on the program state that also report the calls they make.
-/

namespace LowPowerDemo

/-! ## Constants and vendor types -/

/-- UART baudrate, `main.cpp` line 20. -/
def SERIAL_BAUDRATE : Nat := 115200

/-- Application stack memory, `main.cpp` line 23. -/
def APP_THREAD_STACK_SIZE : Nat := 1024

/-- Modelled from the spec: the width of the RTC driver's epoch type (`STM32RTC.h` is
not under `src/`).  The epoch is an integer count of seconds; the driver's
`getEpoch`/`setAlarmEpoch` use `uint32_t`, so `rtc.getEpoch() + 5` on line 92 is
computed modulo `2 ^ 32`. -/
def UINT32_MOD : Nat := 2 ^ 32

/-- Digital output level (`HIGH` / `LOW` of `Arduino.h`). -/
inductive Level
  | LOW
  | HIGH
  deriving DecidableEq, Repr

/-- The two board pins the program names. -/
inductive Pin
  | LED_BUILTIN
  | USER_BTN
  deriving DecidableEq, Repr

/-- Modelled from the spec: pin configurations of `Arduino.h` (not under `src/`):
digital input, digital output, input with pull-up. -/
inductive PinMode
  | INPUT
  | OUTPUT
  | INPUT_PULLUP
  deriving DecidableEq, Repr

/-- Modelled from the spec: interrupt edge modes of `Arduino.h` (not under `src/`):
rising edge, falling edge, or both (`CHANGE`). -/
inductive EdgeMode
  | RISING
  | FALLING
  | CHANGE
  deriving DecidableEq, Repr

/-- Modelled from the spec: the type of the `sleepDepth` argument of
`attachInterruptWakeup` (spec section 6).  Its declaration is not under `src/`, and
neither the source nor the spec lists the modes of the enumeration or orders them by
depth; only the mode the source names (line 90) is modelled. -/
inductive LP_Mode
  | SLEEP_MODE
  deriving DecidableEq, Repr

/-- The two callbacks of `main.cpp`, as the function pointers handed to the services. -/
inductive Handler
  | onAlarmWakeUpCallback
  | onButtonPressCallback
  deriving DecidableEq, Repr

/-- Thread priority of `cmsis_os.h`; the program uses `osPriorityNormal`. -/
inductive Priority
  | osPriorityLow
  | osPriorityNormal
  | osPriorityHigh
  deriving DecidableEq, Repr

/-- Modelled from the spec: `digitalPinToInterrupt` of `Arduino.h` (not under `src/`);
the interrupt of a pin is identified by the pin. -/
def digitalPinToInterrupt (p : Pin) : Pin := p

/-! ## Calls, state, inputs -/

/-- Every call the program makes to a service, with its arguments. -/
inductive Effect
  | serialBegin (baud : Nat)
  | osThreadCreate (priority : Priority) (instances : Nat) (stack : Nat)
  | osKernelStart
  | println (line : String)
  | osDelay (ms : Nat)
  | pinMode (pin : Pin) (mode : PinMode)
  | attachInterrupt (pin : Pin) (cb : Handler) (edge : EdgeMode)
  | rtcBegin
  | rtcSetTime (hours minutes seconds : Nat)
  | rtcSetDate (day month year : Nat)
  | lowPowerBegin
  | enableWakeupFrom (cb : Handler)
  | attachInterruptWakeup (pin : Pin) (cb : Handler) (edge : EdgeMode) (mode : LP_Mode)
  | rtcGetEpoch
  | rtcSetAlarmEpoch (ts : Nat)
  | digitalWrite (pin : Pin) (level : Level)
  | deepSleep
  deriving DecidableEq, Repr

/-- Program counter of `appThreadHandler`: one value per statement, named by the
statement about to run (source line in the comment). -/
inductive Pc
  | printStarting        -- 70
  | bootDelay            -- 71
  | ledPinMode           -- 74
  | btnPinMode           -- 77
  | btnAttachInterrupt   -- 78
  | rtcBegin             -- 81
  | rtcSetTime           -- 82
  | rtcSetDate           -- 83
  | lowPowerBegin        -- 86
  | enableWakeupFrom     -- 88
  | attachInterruptWakeup -- 90
  | rtcGetEpoch          -- 92, argument
  | rtcSetAlarmEpoch     -- 92, call
  | printRunning         -- 96
  | ledHigh              -- 97
  | runDelay             -- 98
  | printSleeping        -- 101
  | ledLow               -- 102
  | sleepDelay           -- 103
  | deepSleep            -- 104
  deriving DecidableEq, Repr

/-- The worker states of spec section 4.2. -/
inductive WorkerState
  | BOOTING
  | ARMING
  | AWAKE
  | SLEEPING
  deriving DecidableEq, Repr

/-- A registered wake source of the low-power controller. -/
inductive WakeSource
  | rtcAlarm (cb : Handler)
  | pinEdge (pin : Pin) (cb : Handler) (edge : EdgeMode) (mode : LP_Mode)
  deriving DecidableEq, Repr

/-- A hardware interrupt: the RTC alarm or an edge on the button pin. -/
inductive Irq
  | rtcAlarm
  | buttonEdge
  deriving DecidableEq, Repr

/-- Program state: the worker's program counter, the static `thread` (line 29), and what
the services have been told so far. -/
structure State where
  pc : Pc
  thread : Option Nat
  serialBaud : Option Nat
  log : List String
  led : Level
  pinModes : List (Pin × PinMode)
  interrupts : List (Pin × Handler × EdgeMode)
  rtcStarted : Bool
  rtcTime : Option (Nat × Nat × Nat)
  rtcDate : Option (Nat × Nat × Nat)
  alarm : Option Nat
  lowPowerStarted : Bool
  wakeSources : List WakeSource
  epoch : Nat
  deriving DecidableEq, Repr

/-- What the environment hands to one statement of the worker. -/
structure Input where
  /-- Value returned by `rtc.getEpoch()`. -/
  epoch : Nat
  /-- Whether the service call of this statement succeeds. -/
  ok : Bool
  /-- The wake source that ends `LowPower.deepSleep()`. -/
  wake : Irq
  /-- Interrupts that fire before the statement runs. -/
  irqs : List Irq
  /-- The user-data pointer handed to the alarm callback. -/
  argument : Nat
  deriving DecidableEq, Repr

/-- State at power-on: nothing configured, `thread = nullptr`, LED at level `led0`. -/
def powerOn (led0 : Level) : State :=
  { pc := .printStarting, thread := none, serialBaud := none, log := [], led := led0,
    pinModes := [], interrupts := [], rtcStarted := false, rtcTime := none,
    rtcDate := none, alarm := none, lowPowerStarted := false, wakeSources := [],
    epoch := 0 }

/-! ## The program -/

/-- The function `setup`, lines 41-51; `created` is what `osThreadCreate` returns
(`none` for a null id).  The last call, `osKernelStart`, does not return. -/
def setup (created : Option Nat) (s : State) : State × List Effect :=
  ({ s with serialBaud := some SERIAL_BAUDRATE, thread := created },
   [.serialBegin SERIAL_BAUDRATE,
    .osThreadCreate .osPriorityNormal 1 APP_THREAD_STACK_SIZE,
    .osKernelStart])

/-- The function `onAlarmWakeUpCallback`, lines 113-115: `(void)argument;`. -/
def onAlarmWakeUpCallback (argument : Nat) (s : State) : State × List Effect :=
  let _unused := argument
  (s, [])

/-- The function `onButtonPressCallback`, lines 121-122: empty body. -/
def onButtonPressCallback (s : State) : State × List Effect :=
  (s, [])

/-- Interrupt dispatch: the hardware runs the callback bound to the interrupt. -/
def serviceIrq (argument : Nat) (s : State) : Irq → State × List Effect
  | .rtcAlarm => onAlarmWakeUpCallback argument s
  | .buttonEdge => onButtonPressCallback s

/-- Interrupt dispatch for a sequence of interrupts, in order. -/
def serviceIrqs (argument : Nat) : List Irq → State → State × List Effect
  | [], s => (s, [])
  | i :: rest, s =>
    let r := serviceIrq argument s i
    let r2 := serviceIrqs argument rest r.1
    (r2.1, r.2 ++ r2.2)

/-- One statement of `appThreadHandler` (lines 70-104), selected by the program counter:
the new state and the calls made.  No branch reads `inp.ok`: no result is tested. -/
def exec (inp : Input) (s : State) : State × List Effect :=
  match s.pc with
  | .printStarting =>
    ({ s with pc := .bootDelay, log := s.log ++ ["Starting thread..."] },
     [.println "Starting thread..."])
  | .bootDelay =>
    ({ s with pc := .ledPinMode }, [.osDelay 3000])
  | .ledPinMode =>
    ({ s with pc := .btnPinMode, pinModes := s.pinModes ++ [(.LED_BUILTIN, .OUTPUT)] },
     [.pinMode .LED_BUILTIN .OUTPUT])
  | .btnPinMode =>
    ({ s with pc := .btnAttachInterrupt,
              pinModes := s.pinModes ++ [(.USER_BTN, .INPUT_PULLUP)] },
     [.pinMode .USER_BTN .INPUT_PULLUP])
  | .btnAttachInterrupt =>
    ({ s with pc := .rtcBegin,
              interrupts := s.interrupts ++
                [(digitalPinToInterrupt .USER_BTN, .onButtonPressCallback, .CHANGE)] },
     [.attachInterrupt (digitalPinToInterrupt .USER_BTN) .onButtonPressCallback .CHANGE])
  | .rtcBegin =>
    ({ s with pc := .rtcSetTime, rtcStarted := true }, [.rtcBegin])
  | .rtcSetTime =>
    ({ s with pc := .rtcSetDate, rtcTime := some (8, 30, 58) }, [.rtcSetTime 8 30 58])
  | .rtcSetDate =>
    ({ s with pc := .lowPowerBegin, rtcDate := some (21, 4, 24) }, [.rtcSetDate 21 4 24])
  | .lowPowerBegin =>
    ({ s with pc := .enableWakeupFrom, lowPowerStarted := true }, [.lowPowerBegin])
  | .enableWakeupFrom =>
    ({ s with pc := .attachInterruptWakeup,
              wakeSources := s.wakeSources ++ [.rtcAlarm .onAlarmWakeUpCallback] },
     [.enableWakeupFrom .onAlarmWakeUpCallback])
  | .attachInterruptWakeup =>
    ({ s with pc := .rtcGetEpoch,
              wakeSources := s.wakeSources ++
                [.pinEdge .USER_BTN .onButtonPressCallback .CHANGE .SLEEP_MODE] },
     [.attachInterruptWakeup .USER_BTN .onButtonPressCallback .CHANGE .SLEEP_MODE])
  | .rtcGetEpoch =>
    ({ s with pc := .rtcSetAlarmEpoch, epoch := inp.epoch % UINT32_MOD }, [.rtcGetEpoch])
  | .rtcSetAlarmEpoch =>
    ({ s with pc := .printRunning, alarm := some ((s.epoch + 5) % UINT32_MOD) },
     [.rtcSetAlarmEpoch ((s.epoch + 5) % UINT32_MOD)])
  | .printRunning =>
    ({ s with pc := .ledHigh, log := s.log ++ ["Running..."] }, [.println "Running..."])
  | .ledHigh =>
    ({ s with pc := .runDelay, led := .HIGH }, [.digitalWrite .LED_BUILTIN .HIGH])
  | .runDelay =>
    ({ s with pc := .printSleeping }, [.osDelay 3000])
  | .printSleeping =>
    ({ s with pc := .ledLow, log := s.log ++ ["Sleeping..."] }, [.println "Sleeping..."])
  | .ledLow =>
    ({ s with pc := .sleepDelay, led := .LOW }, [.digitalWrite .LED_BUILTIN .LOW])
  | .sleepDelay =>
    ({ s with pc := .deepSleep }, [.osDelay 3000])
  | .deepSleep =>
    let w := serviceIrq inp.argument s inp.wake
    ({ w.1 with pc := .printRunning }, Effect.deepSleep :: w.2)

/-- One step of the worker: the interrupts that fire are serviced, then the statement
at the program counter runs. -/
def step (inp : Input) (s : State) : State × List Effect :=
  let a := serviceIrqs inp.argument inp.irqs s
  let b := exec inp a.1
  (b.1, a.2 ++ b.2)

/-- The function `appThreadHandler`, lines 67-106, run for `n` statements from state
`s0`: the state reached and the calls made so far, oldest first.  `inputs k` is what the
environment hands to the statement number `k`. -/
def appThreadHandler (inputs : Nat → Input) (s0 : State) : Nat → State × List Effect
  | 0 => (s0, [])
  | n + 1 =>
    let r := appThreadHandler inputs s0 n
    let t := step (inputs n) r.1
    (t.1, r.2 ++ t.2)

/-- State in which the scheduler enters the worker: after `setup` at power-on. -/
def threadEntry (led0 : Level) (created : Option Nat) : State :=
  (setup created (powerOn led0)).1

/-- The worker state (spec section 4.2) a program counter belongs to. -/
def workerState : Pc → WorkerState
  | .printStarting | .bootDelay => .BOOTING
  | .ledPinMode | .btnPinMode | .btnAttachInterrupt | .rtcBegin | .rtcSetTime
  | .rtcSetDate | .lowPowerBegin | .enableWakeupFrom | .attachInterruptWakeup
  | .rtcGetEpoch | .rtcSetAlarmEpoch => .ARMING
  | .printRunning | .ledHigh | .runDelay => .AWAKE
  | .printSleeping | .ledLow | .sleepDelay | .deepSleep => .SLEEPING

/-- The current log phase: the last line printed, if any. -/
def logPhase (s : State) : Option String := s.log.getLast?

/-- Agreement of LED level and log phase: HIGH while the last line is "Running...",
LOW while it is "Sleeping...". -/
def ledAgrees (s : State) : Prop :=
  (logPhase s = some "Running..." → s.led = .HIGH) ∧
  (logPhase s = some "Sleeping..." → s.led = .LOW)

/-- An input stream handing the same input to every statement. -/
def constInputs (inp : Input) : Nat → Input := fun _ => inp

/-- A sample input: epoch 0, call succeeds, woken by the RTC alarm. -/
def sampleInput : Input :=
  { epoch := 0, ok := true, wake := .rtcAlarm, irqs := [], argument := 0 }

/-- An input stream for two full loop iterations: the first `deepSleep` (statement 19)
is ended by the RTC alarm, the second (statement 26) by a button edge. -/
def twoCycleInputs : Nat → Input := fun k =>
  if k ≤ 19 then sampleInput
  else { epoch := 0, ok := true, wake := .buttonEdge, irqs := [.buttonEdge], argument := 0 }

/-- An input stream in which every service call fails, `rtc.getEpoch` still returns 0,
every `deepSleep` is ended by a button edge and a button edge precedes every statement. -/
def failingInputs : Nat → Input := fun _ =>
  { epoch := 0, ok := false, wake := .buttonEdge, irqs := [.buttonEdge], argument := 7 }

/-- The calls made by the first `n` statements of the worker, entered after `setup`. -/
def trace (inputs : Nat → Input) (led0 : Level) (created : Option Nat) (n : Nat) :
    List Effect :=
  (appThreadHandler inputs (threadEntry led0 created) n).2

/-- The program state after the first `n` statements of the worker. -/
def stateAfter (inputs : Nat → Input) (led0 : Level) (created : Option Nat) (n : Nat) :
    State :=
  (appThreadHandler inputs (threadEntry led0 created) n).1

/-! ## Closed forms used in the proofs -/

/-- The statement at position `i` of the handler: positions 0-12 are the straight-line
part (lines 70-92), positions 13-19 the body of `while (true)` (lines 96-104). -/
def pcOfIndex : Nat → Pc
  | 0 => .printStarting
  | 1 => .bootDelay
  | 2 => .ledPinMode
  | 3 => .btnPinMode
  | 4 => .btnAttachInterrupt
  | 5 => .rtcBegin
  | 6 => .rtcSetTime
  | 7 => .rtcSetDate
  | 8 => .lowPowerBegin
  | 9 => .enableWakeupFrom
  | 10 => .attachInterruptWakeup
  | 11 => .rtcGetEpoch
  | 12 => .rtcSetAlarmEpoch
  | 13 => .printRunning
  | 14 => .ledHigh
  | 15 => .runDelay
  | 16 => .printSleeping
  | 17 => .ledLow
  | 18 => .sleepDelay
  | _ => .deepSleep

/-- Position in the handler of the statement number `n` of a run: the loop body has
seven statements. -/
def posAt (n : Nat) : Nat := if n < 13 then n else 13 + (n - 13) % 7

/-- Program counter before the statement number `n` of a run. -/
def pcAt (n : Nat) : Pc := pcOfIndex (posAt n)

/-- The call made by the statement at `pc` when the epoch read on line 92 is `e`. -/
def callAt (e : Nat) : Pc → Effect
  | .printStarting => .println "Starting thread..."
  | .bootDelay => .osDelay 3000
  | .ledPinMode => .pinMode .LED_BUILTIN .OUTPUT
  | .btnPinMode => .pinMode .USER_BTN .INPUT_PULLUP
  | .btnAttachInterrupt =>
    .attachInterrupt (digitalPinToInterrupt .USER_BTN) .onButtonPressCallback .CHANGE
  | .rtcBegin => .rtcBegin
  | .rtcSetTime => .rtcSetTime 8 30 58
  | .rtcSetDate => .rtcSetDate 21 4 24
  | .lowPowerBegin => .lowPowerBegin
  | .enableWakeupFrom => .enableWakeupFrom .onAlarmWakeUpCallback
  | .attachInterruptWakeup =>
    .attachInterruptWakeup .USER_BTN .onButtonPressCallback .CHANGE .SLEEP_MODE
  | .rtcGetEpoch => .rtcGetEpoch
  | .rtcSetAlarmEpoch => .rtcSetAlarmEpoch ((e + 5) % UINT32_MOD)
  | .printRunning => .println "Running..."
  | .ledHigh => .digitalWrite .LED_BUILTIN .HIGH
  | .runDelay => .osDelay 3000
  | .printSleeping => .println "Sleeping..."
  | .ledLow => .digitalWrite .LED_BUILTIN .LOW
  | .sleepDelay => .osDelay 3000
  | .deepSleep => .deepSleep

/-- The call number `k` of a run in which `rtc.getEpoch()` returned `e`. -/
def effectAt (e : Nat) (k : Nat) : Effect := callAt e (pcAt k)

/-- Whether a call is `rtc.setAlarmEpoch`. -/
def isSetAlarm : Effect → Bool
  | .rtcSetAlarmEpoch _ => true
  | _ => false

/-- Whether a call is an operation of the RTC driver. -/
def isRtcOp : Effect → Bool
  | .rtcBegin | .rtcSetTime _ _ _ | .rtcSetDate _ _ _ | .rtcGetEpoch
  | .rtcSetAlarmEpoch _ => true
  | _ => false

/-- The text of a `Serial.println` call. -/
def logLine : Effect → Option String
  | .println l => some l
  | _ => none

/-- The log lines of a list of calls, in order. -/
def logLines (tr : List Effect) : List String := tr.filterMap logLine

/-- The duration of an `osDelay` call. -/
def delayOf : Effect → Option Nat
  | .osDelay ms => some ms
  | _ => none

/-- The delays requested in a list of calls, in order. -/
def delays (tr : List Effect) : List Nat := tr.filterMap delayOf

/-- The calls strictly between positions `i` and `j` of a trace. -/
def between (tr : List Effect) (i j : Nat) : List Effect := (tr.take j).drop (i + 1)

/-- The first `m` lines of "Running...", "Sleeping...", "Running...", ... -/
def alternating (m : Nat) : List String :=
  (List.range m).map (fun i => if i % 2 = 0 then "Running..." else "Sleeping...")

/-- Number of "Running..." / "Sleeping..." lines among the first `n` calls of a run. -/
def logCount (n : Nat) : Nat :=
  if n ≤ 13 then 0 else 2 * ((n - 14) / 7) + (if (n - 14) % 7 < 3 then 1 else 2)

/-- Successor in the worker state machine `BOOTING → ARMING → {AWAKE ⇄ SLEEPING}`. -/
def WorkerState.next : WorkerState → WorkerState
  | .BOOTING => .ARMING
  | .ARMING => .AWAKE
  | .AWAKE => .SLEEPING
  | .SLEEPING => .AWAKE

/-- Number of statements left in the worker state of `pc`, the one at `pc` included. -/
def stepsLeft : Pc → Nat
  | .printStarting => 2
  | .bootDelay => 1
  | .ledPinMode => 11
  | .btnPinMode => 10
  | .btnAttachInterrupt => 9
  | .rtcBegin => 8
  | .rtcSetTime => 7
  | .rtcSetDate => 6
  | .lowPowerBegin => 5
  | .enableWakeupFrom => 4
  | .attachInterruptWakeup => 3
  | .rtcGetEpoch => 2
  | .rtcSetAlarmEpoch => 1
  | .printRunning => 3
  | .ledHigh => 2
  | .runDelay => 1
  | .printSleeping => 4
  | .ledLow => 3
  | .sleepDelay => 2
  | .deepSleep => 1

/-- The calls of one iteration of `while (true)`, lines 96-104. -/
def loopBody : List Effect :=
  [.println "Running...", .digitalWrite .LED_BUILTIN .HIGH, .osDelay 3000,
   .println "Sleeping...", .digitalWrite .LED_BUILTIN .LOW, .osDelay 3000, .deepSleep]

/-- What `phase` says about a state, by program counter: the last line printed and, once
the LED has been written after it, the LED level. -/
def phaseInv (s : State) : Prop :=
  match s.pc with
  | .printStarting => s.log = []
  | .printRunning =>
    logPhase s = some "Starting thread..." ∨ (logPhase s = some "Sleeping..." ∧ s.led = .LOW)
  | .ledHigh => logPhase s = some "Running..."
  | .runDelay | .printSleeping => logPhase s = some "Running..." ∧ s.led = .HIGH
  | .ledLow => logPhase s = some "Sleeping..." ∧ s.led = .HIGH
  | .sleepDelay | .deepSleep => logPhase s = some "Sleeping..." ∧ s.led = .LOW
  | _ => logPhase s = some "Starting thread..."

/-! ## Lemmas -/

theorem serviceIrq_eq (a : Nat) (s : State) (i : Irq) : serviceIrq a s i = (s, []) := by
  cases i <;> rfl

theorem serviceIrqs_eq (a : Nat) (l : List Irq) (s : State) :
    serviceIrqs a l s = (s, []) := by
  induction l generalizing s with
  | nil => rfl
  | cons i rest ih => simp [serviceIrqs, serviceIrq_eq, ih]

theorem step_eq (inp : Input) (s : State) : step inp s = exec inp s := by
  simp [step, serviceIrqs_eq]

theorem exec_calls (inp : Input) (s : State) : (exec inp s).2 = [callAt s.epoch s.pc] := by
  unfold exec
  split <;> simp_all [callAt, serviceIrq_eq]

theorem posAt_lt (n : Nat) : posAt n < 20 := by
  unfold posAt
  split <;> omega

theorem posAt_succ (n : Nat) :
    posAt (n + 1) = if posAt n = 19 then 13 else posAt n + 1 := by
  unfold posAt
  split_ifs <;> omega

theorem exec_pcOfIndex (inp : Input) (s : State) (i : Nat) (hi : i < 20)
    (h : s.pc = pcOfIndex i) :
    (exec inp s).1.pc = pcOfIndex (if i = 19 then 13 else i + 1) := by
  interval_cases i <;> simp only [pcOfIndex] at h <;> simp [exec, h, pcOfIndex, serviceIrq_eq]

theorem run_succ (inputs : Nat → Input) (s0 : State) (n : Nat) :
    appThreadHandler inputs s0 (n + 1) =
      ((exec (inputs n) (appThreadHandler inputs s0 n).1).1,
       (appThreadHandler inputs s0 n).2 ++
         [callAt (appThreadHandler inputs s0 n).1.epoch (appThreadHandler inputs s0 n).1.pc]) := by
  simp [appThreadHandler, step_eq, exec_calls]

theorem run_pc (inputs : Nat → Input) (led0 : Level) (created : Option Nat) (n : Nat) :
    (appThreadHandler inputs (threadEntry led0 created) n).1.pc = pcAt n := by
  induction n with
  | zero => rfl
  | succ n ih =>
    rw [run_succ]
    simp only
    rw [exec_pcOfIndex _ _ (posAt n) (posAt_lt n) ih, pcAt, posAt_succ]

theorem toCtorIdx_pcOfIndex (i : Nat) (hi : i < 20) : (pcOfIndex i).toCtorIdx = i := by
  interval_cases i <;> rfl

theorem pcAt_eq_iff (n i : Nat) (hi : i < 20) : pcAt n = pcOfIndex i ↔ posAt n = i := by
  constructor
  · intro h
    have h2 := congrArg Pc.toCtorIdx h
    rwa [pcAt, toCtorIdx_pcOfIndex _ (posAt_lt n), toCtorIdx_pcOfIndex _ hi] at h2
  · intro h
    rw [pcAt, h]

theorem exec_epoch (inp : Input) (s : State) :
    (exec inp s).1.epoch = if s.pc = .rtcGetEpoch then inp.epoch % UINT32_MOD else s.epoch := by
  unfold exec
  split <;> simp_all [serviceIrq_eq]

theorem run_epoch (inputs : Nat → Input) (led0 : Level) (created : Option Nat) (n : Nat)
    (hn : 12 ≤ n) :
    (appThreadHandler inputs (threadEntry led0 created) n).1.epoch =
      (inputs 11).epoch % UINT32_MOD := by
  induction n with
  | zero => omega
  | succ n ih =>
    rw [run_succ]
    simp only
    rw [exec_epoch, run_pc]
    by_cases h : n = 11
    · subst h
      simp [pcAt, posAt, pcOfIndex]
    · have h2 : pcAt n ≠ Pc.rtcGetEpoch := by
        intro h3
        have h4 := (pcAt_eq_iff n 11 (by omega)).1 h3
        unfold posAt at h4
        split_ifs at h4 <;> omega
      rw [if_neg h2]
      exact ih (by omega)

theorem callAt_congr (e e2 : Nat) (pc : Pc) (h : pc ≠ .rtcSetAlarmEpoch) :
    callAt e pc = callAt e2 pc := by
  cases pc <;> first | rfl | exact absurd rfl h

/-- Closed form of the trace: the calls of the first `n` statements. -/
theorem run_trace (inputs : Nat → Input) (led0 : Level) (created : Option Nat) (n : Nat) :
    (appThreadHandler inputs (threadEntry led0 created) n).2 =
      (List.range n).map (effectAt ((inputs 11).epoch % UINT32_MOD)) := by
  induction n with
  | zero => rfl
  | succ n ih =>
    rw [run_succ]
    simp only
    rw [ih, List.range_succ, List.map_append, run_pc]
    congr 1
    simp only [List.map_cons, List.map_nil, effectAt]
    congr 1
    by_cases h : n = 12
    · subst h
      rw [run_epoch _ _ _ _ (le_refl 12)]
    · apply callAt_congr
      intro h3
      have h4 := (pcAt_eq_iff n 12 (by omega)).1 h3
      unfold posAt at h4
      split_ifs at h4 <;> omega

theorem run_length (inputs : Nat → Input) (led0 : Level) (created : Option Nat) (n : Nat) :
    (appThreadHandler inputs (threadEntry led0 created) n).2.length = n := by
  simp [run_trace]

theorem run_getElem_opt (inputs : Nat → Input) (led0 : Level) (created : Option Nat)
    (n k : Nat) :
    (appThreadHandler inputs (threadEntry led0 created) n).2[k]? =
      if k < n then some (effectAt ((inputs 11).epoch % UINT32_MOD) k) else none := by
  rw [run_trace]
  split_ifs with h
  · simp [List.getElem?_map, List.getElem?_range h]
  · simp [List.getElem?_eq_none_iff]
    omega

theorem trace_eq (inputs : Nat → Input) (led0 : Level) (created : Option Nat) (n : Nat) :
    trace inputs led0 created n =
      (List.range n).map (effectAt ((inputs 11).epoch % UINT32_MOD)) :=
  run_trace inputs led0 created n

theorem trace_getElem_opt (inputs : Nat → Input) (led0 : Level) (created : Option Nat)
    (n k : Nat) :
    (trace inputs led0 created n)[k]? =
      if k < n then some (effectAt ((inputs 11).epoch % UINT32_MOD) k) else none :=
  run_getElem_opt inputs led0 created n k

theorem trace_succ (inputs : Nat → Input) (led0 : Level) (created : Option Nat) (n : Nat) :
    trace inputs led0 created (n + 1) =
      trace inputs led0 created n ++ [effectAt ((inputs 11).epoch % UINT32_MOD) n] := by
  simp [trace_eq, List.range_succ]

theorem effectAt_pos (e k : Nat) : effectAt e k = callAt e (pcOfIndex (posAt k)) := rfl

theorem isSetAlarm_effectAt (e k : Nat) : isSetAlarm (effectAt e k) = true ↔ k = 12 := by
  have hlt := posAt_lt k
  have hp : posAt k = 12 ↔ k = 12 := by
    unfold posAt
    split_ifs <;> omega
  rw [effectAt_pos, ← hp]
  generalize posAt k = p at hlt ⊢
  interval_cases p <;> simp [pcOfIndex, callAt, isSetAlarm]

theorem isRtcOp_effectAt (e k : Nat) (hk : 13 ≤ k) : isRtcOp (effectAt e k) = false := by
  have hlt := posAt_lt k
  have hp : 13 ≤ posAt k := by
    unfold posAt
    split_ifs <;> omega
  rw [effectAt_pos]
  generalize posAt k = p at hlt hp ⊢
  interval_cases p <;> simp [pcOfIndex, callAt, isRtcOp]

theorem running_effectAt (e k : Nat) :
    effectAt e k = Effect.println "Running..." ↔ 13 ≤ k ∧ (k - 13) % 7 = 0 := by
  have hlt := posAt_lt k
  have hp : posAt k = 13 ↔ 13 ≤ k ∧ (k - 13) % 7 = 0 := by
    unfold posAt
    split_ifs <;> omega
  rw [effectAt_pos, ← hp]
  generalize posAt k = p at hlt ⊢
  interval_cases p <;> simp [pcOfIndex, callAt]

theorem countP_setAlarm (e n : Nat) :
    ((List.range n).map (effectAt e)).countP isSetAlarm = if n ≤ 12 then 0 else 1 := by
  induction n with
  | zero => rfl
  | succ n ih =>
    rw [List.range_succ, List.map_append, List.countP_append, ih]
    by_cases h : n = 12
    · subst h
      have := (isSetAlarm_effectAt e 12).2 rfl
      simp [List.countP_cons, this]
    · have h2 : isSetAlarm (effectAt e n) = false := by
        cases hb : isSetAlarm (effectAt e n)
        · rfl
        · exact absurd ((isSetAlarm_effectAt e n).1 hb) h
      simp only [List.map_cons, List.map_nil, List.countP_cons, List.countP_nil, h2]
      by_cases h3 : n ≤ 12
      · have h4 : n + 1 ≤ 12 := by omega
        simp [h3, h4]
      · have h4 : ¬ n + 1 ≤ 12 := by omega
        simp [h3, h4]

/-- C3. In every prefix of the worker's trace that contains a "Running..." line,
`rtc.setAlarmEpoch` occurs exactly once; it is call number 12, right after `rtc.getEpoch`
(call 11) and before the first "Running..." line (call 13, no earlier one); its argument
is the value `rtc.getEpoch` returned plus 5 modulo `2 ^ 32`; and no call from number 13
on, that is no call of any loop iteration, is an RTC operation. -/
theorem alarm_programmed_once_during_arming (inputs : Nat → Input) (led0 : Level)
    (created : Option Nat) (n : Nat)
    (hreach : Effect.println "Running..." ∈ trace inputs led0 created n) :
    (trace inputs led0 created n).countP isSetAlarm = 1 ∧
    (trace inputs led0 created n)[11]? = some Effect.rtcGetEpoch ∧
    (trace inputs led0 created n)[12]? =
      some (Effect.rtcSetAlarmEpoch (((inputs 11).epoch % UINT32_MOD + 5) % UINT32_MOD)) ∧
    (trace inputs led0 created n)[13]? = some (Effect.println "Running...") ∧
    (∀ k, k < 13 → (trace inputs led0 created n)[k]? ≠ some (Effect.println "Running...")) ∧
    (∀ k c, 13 ≤ k → (trace inputs led0 created n)[k]? = some c → isRtcOp c = false) := by
  have hn : 14 ≤ n := by
    rw [trace_eq, List.mem_map] at hreach
    obtain ⟨k, hk, hke⟩ := hreach
    have := (running_effectAt _ k).1 hke
    rw [List.mem_range] at hk
    omega
  refine ⟨?_, ?_, ?_, ?_, ?_, ?_⟩
  · rw [trace_eq, countP_setAlarm, if_neg (by omega)]
  · rw [trace_getElem_opt, if_pos (by omega)]
    rfl
  · rw [trace_getElem_opt, if_pos (by omega)]
    rfl
  · rw [trace_getElem_opt, if_pos (by omega)]
    rfl
  · intro k hk
    rw [trace_getElem_opt, if_pos (by omega)]
    intro h
    have := (running_effectAt _ k).1 (Option.some.inj h)
    omega
  · intro k c hk hc
    rw [trace_getElem_opt] at hc
    split_ifs at hc
    rw [← Option.some.inj hc]
    exact isRtcOp_effectAt _ k hk

/-- Witness for C3: the first 14 calls of a run in which `rtc.getEpoch` returns 0. -/
theorem alarm_programmed_once_during_arming_witness :
    Effect.println "Running..." ∈ trace (constInputs sampleInput) Level.LOW (some 1) 14 ∧
    (trace (constInputs sampleInput) Level.LOW (some 1) 14).countP isSetAlarm = 1 ∧
    (trace (constInputs sampleInput) Level.LOW (some 1) 14)[12]? =
      some (Effect.rtcSetAlarmEpoch 5) := by
  have h : Effect.println "Running..." ∈
      trace (constInputs sampleInput) Level.LOW (some 1) 14 := by decide
  have t := alarm_programmed_once_during_arming (constInputs sampleInput) Level.LOW (some 1) 14 h
  exact ⟨h, t.1, t.2.2.1⟩

theorem phaseInv_exec (inp : Input) (s : State) (h : phaseInv s) :
    phaseInv (exec inp s).1 := by
  rcases s with ⟨pc, thread, baud, log, led, pm, ints, rs, rt, rd, al, ls, ws, ep⟩
  cases pc <;>
    simp_all [phaseInv, exec, logPhase, serviceIrq_eq, List.getLast?_append]

theorem phaseInv_stateAfter (inputs : Nat → Input) (led0 : Level) (created : Option Nat)
    (n : Nat) : phaseInv (stateAfter inputs led0 created n) := by
  induction n with
  | zero => simp [stateAfter, appThreadHandler, threadEntry, setup, powerOn, phaseInv]
  | succ n ih =>
    unfold stateAfter at ih ⊢
    rw [run_succ]
    exact phaseInv_exec _ _ ih

theorem stateAfter_pc (inputs : Nat → Input) (led0 : Level) (created : Option Nat)
    (n : Nat) : (stateAfter inputs led0 created n).pc = pcOfIndex (posAt n) :=
  run_pc inputs led0 created n

theorem stateAfter_succ (inputs : Nat → Input) (led0 : Level) (created : Option Nat)
    (n : Nat) :
    stateAfter inputs led0 created (n + 1) =
      (exec (inputs n) (stateAfter inputs led0 created n)).1 := by
  unfold stateAfter
  rw [run_succ]

theorem trace_getLast (inputs : Nat → Input) (led0 : Level) (created : Option Nat)
    (n : Nat) :
    (trace inputs led0 created (n + 1)).getLast? =
      some (callAt ((inputs 11).epoch % UINT32_MOD) (pcOfIndex (posAt n))) := by
  rw [trace_succ, List.getLast?_append]
  rfl

theorem exec_led (inp : Input) (s : State) :
    (exec inp s).1.led =
      if s.pc = .ledHigh then .HIGH else if s.pc = .ledLow then .LOW else s.led := by
  unfold exec
  split <;> simp_all [serviceIrq_eq]

/-- C1, as amended. After any call that is not a log line the LED agrees with the log
phase (HIGH while the last line is "Running...", LOW while it is "Sleeping..."); right
after "Sleeping..." is printed the LED is still HIGH, and right after a "Running..."
line of a later iteration it is still LOW, until the `digitalWrite` that follows. -/
theorem led_agrees_from_led_write_on (inputs : Nat → Input) (led0 : Level)
    (created : Option Nat) (n : Nat) :
    ((trace inputs led0 created n).getLast?.bind logLine = none →
      ledAgrees (stateAfter inputs led0 created n)) ∧
    ((trace inputs led0 created n).getLast? = some (Effect.println "Sleeping...") →
      logPhase (stateAfter inputs led0 created n) = some "Sleeping..." ∧
      (stateAfter inputs led0 created n).led = Level.HIGH) ∧
    ((trace inputs led0 created n).getLast? = some (Effect.println "Running...") →
      14 < n →
      logPhase (stateAfter inputs led0 created n) = some "Running..." ∧
      (stateAfter inputs led0 created n).led = Level.LOW) := by
  have hinv := phaseInv_stateAfter inputs led0 created n
  have hpc := stateAfter_pc inputs led0 created n
  cases n with
  | zero =>
    refine ⟨fun _ => ?_, fun h => ?_, fun h => ?_⟩
    · simp [ledAgrees, logPhase, stateAfter, appThreadHandler, threadEntry, setup, powerOn]
    · simp [trace, appThreadHandler] at h
    · simp [trace, appThreadHandler] at h
  | succ m =>
    rw [trace_getLast]
    have hlt := posAt_lt m
    rw [posAt_succ] at hpc
    unfold phaseInv at hinv
    refine ⟨fun h => ?_, fun h => ?_, fun h hm => ?_⟩
    · generalize posAt m = p at hlt hpc h
      interval_cases p <;> simp [pcOfIndex, callAt, logLine] at h hpc <;>
        (rw [hpc] at hinv
         simp only at hinv
         first
         | (simp [ledAgrees, hinv]; done)
         | (rcases hinv with h1 | h1 <;> simp [ledAgrees, h1]))
    · generalize posAt m = p at hlt hpc h
      interval_cases p <;> simp [pcOfIndex, callAt] at h hpc
      rw [hpc] at hinv
      simpa using hinv
    · have hm13 : posAt m = 13 := by
        generalize posAt m = p at hlt h ⊢
        interval_cases p <;> simp [pcOfIndex, callAt] at h ⊢
      rw [hm13] at hpc
      simp [pcOfIndex] at hpc
      rw [hpc] at hinv
      refine ⟨by simpa using hinv, ?_⟩
      obtain ⟨j, rfl⟩ : ∃ j, m = j + 1 := ⟨m - 1, by omega⟩
      have hj : posAt j = 19 := by
        unfold posAt at hm13 ⊢
        split_ifs at hm13 ⊢ <;> omega
      have hinvj := phaseInv_stateAfter inputs led0 created j
      have hpcj := stateAfter_pc inputs led0 created j
      rw [hj] at hpcj
      unfold phaseInv at hinvj
      simp [pcOfIndex] at hpcj
      rw [hpcj] at hinvj
      have hpc1 := stateAfter_pc inputs led0 created (j + 1)
      rw [hm13] at hpc1
      simp [pcOfIndex] at hpc1
      rw [stateAfter_succ, exec_led, hpc1, stateAfter_succ, exec_led, hpcj]
      simpa using hinvj.2

/-- Witness for C1 as amended: after call 15 (the `osDelay` of the running phase) the
LED agrees with the phase, after call 16 ("Sleeping...") it is still HIGH, and after call
20 (the second "Running...") it is still LOW. -/
theorem led_agrees_from_led_write_on_witness :
    ((trace (constInputs sampleInput) Level.LOW (some 1) 16).getLast?.bind logLine = none ∧
      ledAgrees (stateAfter (constInputs sampleInput) Level.LOW (some 1) 16)) ∧
    ((trace (constInputs sampleInput) Level.LOW (some 1) 17).getLast? =
        some (Effect.println "Sleeping...") ∧
      (stateAfter (constInputs sampleInput) Level.LOW (some 1) 17).led = Level.HIGH) ∧
    ((trace (constInputs sampleInput) Level.LOW (some 1) 21).getLast? =
        some (Effect.println "Running...") ∧ 14 < 21 ∧
      (stateAfter (constInputs sampleInput) Level.LOW (some 1) 21).led = Level.LOW) :=
  ⟨⟨by decide,
    (led_agrees_from_led_write_on (constInputs sampleInput) Level.LOW (some 1) 16).1
      (by decide)⟩,
   ⟨by decide,
    ((led_agrees_from_led_write_on (constInputs sampleInput) Level.LOW (some 1) 17).2.1
      (by decide)).2⟩,
   ⟨by decide, by decide,
    ((led_agrees_from_led_write_on (constInputs sampleInput) Level.LOW (some 1) 21).2.2
      (by decide) (by decide)).2⟩⟩

/-- Counterexample to C1 as stated: the 17th call of a run prints "Sleeping..."; in the
state right after it the log phase is "Sleeping..." while the LED is still HIGH (the
`digitalWrite(LED_BUILTIN, LOW)` of line 102 has not run yet), so LED and log phase
disagree after the effect that emits the log line. -/
theorem led_disagrees_right_after_log_line :
    (trace (constInputs sampleInput) Level.LOW (some 1) 17).getLast? =
      some (Effect.println "Sleeping...") ∧
    logPhase (stateAfter (constInputs sampleInput) Level.LOW (some 1) 17) =
      some "Sleeping..." ∧
    (stateAfter (constInputs sampleInput) Level.LOW (some 1) 17).led = Level.HIGH ∧
    ¬ ledAgrees (stateAfter (constInputs sampleInput) Level.LOW (some 1) 17) := by
  refine ⟨by decide, by decide, by decide, ?_⟩
  intro h
  have h2 := h.2 (by decide)
  revert h2
  decide

/-- C2, the code at the failing input: in a run of two full loop iterations (27
statements, woken first by the RTC alarm and then by the button) `rtc.setAlarmEpoch` is
called once in all, none of the 14 calls of the two iterations is `rtc.setAlarmEpoch`,
and the alarm callback run at the wake-up makes no call and leaves the alarm deadline
as ARMING set it. -/
theorem alarm_not_rearmed_in_two_cycles :
    (trace twoCycleInputs Level.LOW (some 1) 27).countP isSetAlarm = 1 ∧
    ((trace twoCycleInputs Level.LOW (some 1) 27).drop 13).length = 14 ∧
    ((trace twoCycleInputs Level.LOW (some 1) 27).drop 13).countP isSetAlarm = 0 ∧
    (onAlarmWakeUpCallback 0 (stateAfter twoCycleInputs Level.LOW (some 1) 19)).2 = [] ∧
    (onAlarmWakeUpCallback 0 (stateAfter twoCycleInputs Level.LOW (some 1) 19)).1.alarm =
      some 5 ∧
    (stateAfter twoCycleInputs Level.LOW (some 1) 27).alarm = some 5 := by
  decide

theorem posAt_eq_of_lt (k i : Nat) (hi : i < 13) : posAt k = i ↔ k = i := by
  unfold posAt
  split_ifs <;> omega

theorem trace_getElem_some (inputs : Nat → Input) (led0 : Level) (created : Option Nat)
    (n k : Nat) (c : Effect) (h : (trace inputs led0 created n)[k]? = some c) :
    k < n ∧ effectAt ((inputs 11).epoch % UINT32_MOD) k = c := by
  rw [trace_getElem_opt] at h
  split_ifs at h with hk
  exact ⟨hk, Option.some.inj h⟩

theorem setTime_effectAt (e k h m s : Nat) (hc : effectAt e k = Effect.rtcSetTime h m s) :
    k = 6 ∧ h = 8 ∧ m = 30 ∧ s = 58 := by
  have hlt := posAt_lt k
  have hp := posAt_eq_of_lt k 6 (by omega)
  rw [effectAt_pos] at hc
  generalize posAt k = p at hlt hc hp
  interval_cases p <;> simp [pcOfIndex, callAt] at hc hp
  exact ⟨hp, hc.1.symm, hc.2.1.symm, hc.2.2.symm⟩

theorem setDate_effectAt (e k d m y : Nat) (hc : effectAt e k = Effect.rtcSetDate d m y) :
    k = 7 ∧ d = 21 ∧ m = 4 ∧ y = 24 := by
  have hlt := posAt_lt k
  have hp := posAt_eq_of_lt k 7 (by omega)
  rw [effectAt_pos] at hc
  generalize posAt k = p at hlt hc hp
  interval_cases p <;> simp [pcOfIndex, callAt] at hc hp
  exact ⟨hp, hc.1.symm, hc.2.1.symm, hc.2.2.symm⟩

/-- C5, as amended. In every run, whatever the inputs, once 9 calls have been made:
call 5 is `rtc.begin()`, call 6 is `rtc.setTime(8, 30, 58)`, call 7 is
`rtc.setDate(21, 4, 24)` and call 8 is `LowPower.begin()`; `setTime` and `setDate`
are called nowhere else, and the year argument `setDate` receives is 24. -/
theorem rtc_set_to_fixed_time_and_date (inputs : Nat → Input) (led0 : Level)
    (created : Option Nat) (n : Nat) (hn : 9 ≤ n) :
    (trace inputs led0 created n)[5]? = some Effect.rtcBegin ∧
    (trace inputs led0 created n)[6]? = some (Effect.rtcSetTime 8 30 58) ∧
    (trace inputs led0 created n)[7]? = some (Effect.rtcSetDate 21 4 24) ∧
    (trace inputs led0 created n)[8]? = some Effect.lowPowerBegin ∧
    (∀ k h m s, (trace inputs led0 created n)[k]? = some (Effect.rtcSetTime h m s) →
      k = 6 ∧ h = 8 ∧ m = 30 ∧ s = 58) ∧
    (∀ k d m y, (trace inputs led0 created n)[k]? = some (Effect.rtcSetDate d m y) →
      k = 7 ∧ d = 21 ∧ m = 4 ∧ y = 24) := by
  refine ⟨?_, ?_, ?_, ?_, ?_, ?_⟩
  · rw [trace_getElem_opt, if_pos (by omega)]
    rfl
  · rw [trace_getElem_opt, if_pos (by omega)]
    rfl
  · rw [trace_getElem_opt, if_pos (by omega)]
    rfl
  · rw [trace_getElem_opt, if_pos (by omega)]
    rfl
  · intro k h m s hc
    exact setTime_effectAt _ k h m s (trace_getElem_some _ _ _ _ _ _ hc).2
  · intro k d m y hc
    exact setDate_effectAt _ k d m y (trace_getElem_some _ _ _ _ _ _ hc).2

/-- Witness for C5 as amended: the first 9 calls of a run. -/
theorem rtc_set_to_fixed_time_and_date_witness :
    9 ≤ 9 ∧
    (trace (constInputs sampleInput) Level.LOW (some 1) 9)[7]? =
      some (Effect.rtcSetDate 21 4 24) :=
  ⟨by decide,
   (rtc_set_to_fixed_time_and_date (constInputs sampleInput) Level.LOW (some 1) 9
     (by decide)).2.2.1⟩

/-- Counterexample to C5 as stated: the only `setDate` call of a run (here of its first
27 calls, ARMING and two loop iterations) receives the year argument 24, not 2024; no
call `rtc.setDate(21, 4, 2024)` is made, and the date the program state records is
(21, 4, 24). -/
theorem setDate_year_argument_is_24 :
    (trace (constInputs sampleInput) Level.LOW (some 1) 27)[7]? =
      some (Effect.rtcSetDate 21 4 24) ∧
    Effect.rtcSetDate 21 4 2024 ∉ trace (constInputs sampleInput) Level.LOW (some 1) 27 ∧
    (stateAfter (constInputs sampleInput) Level.LOW (some 1) 27).rtcDate =
      some (21, 4, 24) := by
  decide

/-- C6. Whatever `osThreadCreate` returns (a thread id or null), `setup` makes the same
three calls, `osKernelStart` being the one right after `osThreadCreate` and the last.
For any two runs of the worker, whatever the inputs (success or failure of every call,
wake sources, interrupts, LED level, thread id): every call other than call 12 (the
`setAlarmEpoch`) is the same in both, the whole traces are equal when `rtc.getEpoch`
returned the same value, and after `n` statements exactly `n` calls have been made (none
is repeated or skipped). -/
theorem no_service_result_checked (created : Option Nat) (s : State)
    (inputs1 inputs2 : Nat → Input) (led1 led2 : Level) (created1 created2 : Option Nat)
    (n : Nat) :
    (setup created s).2 =
      [Effect.serialBegin SERIAL_BAUDRATE,
       Effect.osThreadCreate Priority.osPriorityNormal 1 APP_THREAD_STACK_SIZE,
       Effect.osKernelStart] ∧
    (setup created s).1.thread = created ∧
    (∀ k, k ≠ 12 →
      (trace inputs1 led1 created1 n)[k]? = (trace inputs2 led2 created2 n)[k]?) ∧
    ((inputs1 11).epoch % UINT32_MOD = (inputs2 11).epoch % UINT32_MOD →
      trace inputs1 led1 created1 n = trace inputs2 led2 created2 n) ∧
    (trace inputs1 led1 created1 n).length = n := by
  refine ⟨rfl, rfl, ?_, ?_, ?_⟩
  · intro k hk
    rw [trace_getElem_opt, trace_getElem_opt]
    split_ifs
    · congr 1
      apply callAt_congr
      intro h3
      have h4 := (pcAt_eq_iff k 12 (by omega)).1 h3
      exact hk ((posAt_eq_of_lt k 12 (by omega)).1 h4)
    · rfl
  · intro h
    rw [trace_eq, trace_eq, h]
  · exact run_length inputs1 led1 created1 n

/-- Witness for C6: a run in which every call succeeds and a run in which every call
fails make the same 27 calls. -/
theorem no_service_result_checked_witness :
    ((constInputs sampleInput) 11).epoch % UINT32_MOD = (failingInputs 11).epoch % UINT32_MOD ∧
    trace (constInputs sampleInput) Level.LOW (some 1) 27 =
      trace failingInputs Level.HIGH none 27 :=
  ⟨by decide,
   (no_service_result_checked none (powerOn Level.LOW) (constInputs sampleInput)
     failingInputs Level.LOW Level.HIGH (some 1) none 27).2.2.2.1 (by decide)⟩

/-- C9. Both interrupt callbacks return the program state they were given, whatever the
state and the argument, and make no call; so does the dispatch of any sequence of
interrupts. -/
theorem callbacks_are_noops (s : State) (argument : Nat) (irqs : List Irq) :
    onAlarmWakeUpCallback argument s = (s, []) ∧
    onButtonPressCallback s = (s, []) ∧
    serviceIrqs argument irqs s = (s, []) :=
  ⟨rfl, rfl, serviceIrqs_eq argument irqs s⟩

theorem exec_loop_indep (inp inp2 : Input) (s : State)
    (h : workerState s.pc = .AWAKE ∨ workerState s.pc = .SLEEPING) :
    exec inp s = exec inp2 s ∧
      (workerState (exec inp s).1.pc = .AWAKE ∨
        workerState (exec inp s).1.pc = .SLEEPING) := by
  rcases s with ⟨pc, thread, baud, log, led, pm, ints, rs, rt, rd, al, ls, ws, ep⟩
  cases pc <;> simp [exec, workerState, serviceIrq_eq] at h ⊢

theorem run_loop_indep (inputs inputs2 : Nat → Input) (s : State)
    (h : workerState s.pc = .AWAKE ∨ workerState s.pc = .SLEEPING) (n : Nat) :
    appThreadHandler inputs s n = appThreadHandler inputs2 s n ∧
      (workerState (appThreadHandler inputs s n).1.pc = .AWAKE ∨
        workerState (appThreadHandler inputs s n).1.pc = .SLEEPING) := by
  induction n with
  | zero => exact ⟨rfl, h⟩
  | succ n ih =>
    have h1 := exec_loop_indep (inputs n) (inputs2 n) _ ih.2
    constructor
    · simp only [appThreadHandler, step_eq]
      rw [← ih.1, h1.1]
    · simp only [appThreadHandler, step_eq]
      exact h1.2

theorem step_pc_ne (inp : Input) (t : State) : (step inp t).1.pc ≠ t.pc := by
  rcases t with ⟨pc, thread, baud, log, led, pm, ints, rs, rt, rd, al, ls, ws, ep⟩
  cases pc <;> simp [step_eq, exec, serviceIrq_eq]

theorem run_reaches_next (inputs : Nat → Input) (t : State) :
    workerState (appThreadHandler inputs t (stepsLeft t.pc)).1.pc =
      (workerState t.pc).next := by
  rcases t with ⟨pc, thread, baud, log, led, pm, ints, rs, rt, rd, al, ls, ws, ep⟩
  cases pc <;>
    simp [stepsLeft, appThreadHandler, step_eq, exec, workerState, WorkerState.next,
      serviceIrq_eq]

/-- C10. From any state at the `LowPower.deepSleep()` statement (whatever the alarm
deadline and the rest of the state), when the call returns, whichever wake source ended
it: the worker is in state AWAKE, at the "Running..." statement; its next three calls are
`println "Running..."`, `digitalWrite(LED_BUILTIN, HIGH)`, `osDelay(3000)`; the state
reached and every later call are the same for any other wake cause and any other later
inputs. No state is terminal: from any state `t` every step moves the program counter,
and after `stepsLeft t.pc` statements the worker is in the successor state of
`BOOTING → ARMING → AWAKE ⇄ SLEEPING`. -/
theorem wake_up_resumes_awake (inp inp2 : Input) (inputs inputs2 : Nat → Input)
    (s t : State) (n : Nat) (h : s.pc = Pc.deepSleep) :
    workerState (step inp s).1.pc = WorkerState.AWAKE ∧
    (step inp s).1.pc = Pc.printRunning ∧
    (appThreadHandler inputs (step inp s).1 3).2 =
      [Effect.println "Running...", Effect.digitalWrite Pin.LED_BUILTIN Level.HIGH,
       Effect.osDelay 3000] ∧
    step inp s = step inp2 s ∧
    appThreadHandler inputs (step inp s).1 n = appThreadHandler inputs2 (step inp2 s).1 n ∧
    (step inp t).1.pc ≠ t.pc ∧
    workerState (appThreadHandler inputs t (stepsLeft t.pc)).1.pc =
      (workerState t.pc).next := by
  have hs : step inp s = step inp2 s := by
    rw [step_eq, step_eq]
    exact (exec_loop_indep inp inp2 s (Or.inr (by rw [h]; rfl))).1
  have hpc : (step inp s).1.pc = Pc.printRunning := by
    rcases s with ⟨pc, thread, baud, log, led, pm, ints, rs, rt, rd, al, ls, ws, ep⟩
    simp only at h
    subst h
    simp [step_eq, exec, serviceIrq_eq]
  refine ⟨by rw [hpc]; rfl, hpc, ?_, hs, ?_, step_pc_ne inp t, run_reaches_next inputs t⟩
  · rcases s with ⟨pc, thread, baud, log, led, pm, ints, rs, rt, rd, al, ls, ws, ep⟩
    simp only at h
    subst h
    simp [appThreadHandler, step_eq, exec, serviceIrq_eq]
  · rw [← hs]
    exact (run_loop_indep inputs inputs2 _ (Or.inl (by rw [hpc]; rfl)) n).1

/-- Witness for C10: the state after 19 statements is at `deepSleep`; woken by the RTC
alarm or by the button, the worker is AWAKE. -/
theorem wake_up_resumes_awake_witness :
    (stateAfter (constInputs sampleInput) Level.LOW (some 1) 19).pc = Pc.deepSleep ∧
    workerState (step sampleInput
      (stateAfter (constInputs sampleInput) Level.LOW (some 1) 19)).1.pc =
        WorkerState.AWAKE ∧
    step sampleInput (stateAfter (constInputs sampleInput) Level.LOW (some 1) 19) =
      step (failingInputs 0) (stateAfter (constInputs sampleInput) Level.LOW (some 1) 19) :=
  ⟨by decide,
   (wake_up_resumes_awake sampleInput (failingInputs 0) (constInputs sampleInput)
     failingInputs (stateAfter (constInputs sampleInput) Level.LOW (some 1) 19)
     (powerOn Level.LOW) 7 (by decide)).1,
   (wake_up_resumes_awake sampleInput (failingInputs 0) (constInputs sampleInput)
     failingInputs (stateAfter (constInputs sampleInput) Level.LOW (some 1) 19)
     (powerOn Level.LOW) 7 (by decide)).2.2.2.1⟩

theorem trace_take (inputs : Nat → Input) (led0 : Level) (created : Option Nat)
    (j n : Nat) (h : j ≤ n) :
    (trace inputs led0 created n).take j = trace inputs led0 created j := by
  rw [trace_eq, trace_eq, ← List.map_take, List.take_range, Nat.min_eq_left h]

theorem alternating_succ (m : Nat) :
    alternating (m + 1) =
      alternating m ++ [if m % 2 = 0 then "Running..." else "Sleeping..."] := by
  simp [alternating, List.range_succ]

theorem logCount_step (k : Nat) :
    (posAt k = 13 → logCount (k + 1) = logCount k + 1 ∧ logCount k % 2 = 0) ∧
    (posAt k = 16 → logCount (k + 1) = logCount k + 1 ∧ logCount k % 2 = 1) ∧
    (posAt k ≠ 13 → posAt k ≠ 16 → logCount (k + 1) = logCount k) := by
  unfold posAt logCount
  refine ⟨?_, ?_, ?_⟩ <;> intros <;> split_ifs at * <;> omega

theorem logLines_trace (inputs : Nat → Input) (led0 : Level) (created : Option Nat)
    (n : Nat) :
    logLines (trace inputs led0 created (n + 1)) =
      "Starting thread..." :: alternating (logCount (n + 1)) := by
  induction n with
  | zero =>
    rw [trace_eq]
    rfl
  | succ n ih =>
    rw [trace_succ, logLines, List.filterMap_append]
    change logLines _ ++ _ = _
    rw [ih, effectAt_pos]
    have hlt := posAt_lt (n + 1)
    have hstep := logCount_step (n + 1)
    have h0 : posAt (n + 1) ≠ 0 := by
      unfold posAt
      split_ifs <;> omega
    generalize posAt (n + 1) = p at hlt hstep h0
    interval_cases p
    all_goals first
      | exact absurd rfl h0
      | (obtain ⟨h1, h2⟩ := hstep.1 rfl
         rw [h1, alternating_succ, if_pos h2]
         rfl)
      | (obtain ⟨h1, h2⟩ := hstep.2.1 rfl
         rw [h1, alternating_succ, if_neg (by omega)]
         rfl)
      | (rw [hstep.2.2 (by decide) (by decide)]
         simp [pcOfIndex, callAt, logLine])

theorem starting_not_mem_alternating (j : Nat) : "Starting thread..." ∉ alternating j := by
  intro h
  simp only [alternating, List.mem_map, List.mem_range] at h
  obtain ⟨a, _, ha⟩ := h
  split_ifs at ha <;> exact absurd ha (by decide)

/-- C7. In every run the first 14 calls are `println "Starting thread..."`,
`osDelay(3000)`, the eleven ARMING calls (none a `println`) and `println "Running..."`,
and they begin every longer trace. The log lines of any non-empty trace are
"Starting thread..." followed by a prefix of "Running...", "Sleeping...", "Running...",
..., so "Starting thread..." is logged once only; and every such prefix is reached. -/
theorem log_lines_in_order (inputs : Nat → Input) (led0 : Level) (created : Option Nat)
    (n m : Nat) :
    trace inputs led0 created 14 =
      [Effect.println "Starting thread...",
       Effect.osDelay 3000,
       Effect.pinMode Pin.LED_BUILTIN PinMode.OUTPUT,
       Effect.pinMode Pin.USER_BTN PinMode.INPUT_PULLUP,
       Effect.attachInterrupt Pin.USER_BTN Handler.onButtonPressCallback EdgeMode.CHANGE,
       Effect.rtcBegin,
       Effect.rtcSetTime 8 30 58,
       Effect.rtcSetDate 21 4 24,
       Effect.lowPowerBegin,
       Effect.enableWakeupFrom Handler.onAlarmWakeUpCallback,
       Effect.attachInterruptWakeup Pin.USER_BTN Handler.onButtonPressCallback
         EdgeMode.CHANGE LP_Mode.SLEEP_MODE,
       Effect.rtcGetEpoch,
       Effect.rtcSetAlarmEpoch (((inputs 11).epoch % UINT32_MOD + 5) % UINT32_MOD),
       Effect.println "Running..."] ∧
    (trace inputs led0 created (14 + n)).take 14 = trace inputs led0 created 14 ∧
    logLines (trace inputs led0 created 0) = [] ∧
    (∃ j, logLines (trace inputs led0 created (n + 1)) =
      "Starting thread..." :: alternating j) ∧
    (logLines (trace inputs led0 created (n + 1))).count "Starting thread..." = 1 ∧
    (∃ k, logLines (trace inputs led0 created k) =
      "Starting thread..." :: alternating m) := by
  refine ⟨?_, trace_take _ _ _ _ _ (by omega), rfl, ⟨_, logLines_trace _ _ _ n⟩, ?_, ?_⟩
  · rw [trace_eq]
    rfl
  · rw [logLines_trace, List.count_cons_self,
      List.count_eq_zero.2 (starting_not_mem_alternating _)]
  · by_cases hm : m = 0
    · subst hm
      exact ⟨1, by rw [logLines_trace]; rfl⟩
    · refine ⟨(13 + 7 * ((m - 1) / 2) + 3 * ((m - 1) % 2)) + 1, ?_⟩
      rw [logLines_trace]
      congr 2
      unfold logCount
      split_ifs <;> omega

theorem effectAt_loop (e q r : Nat) (hr : r < 7) :
    effectAt e (13 + 7 * q + r) = callAt e (pcOfIndex (13 + r)) := by
  have h : posAt (13 + 7 * q + r) = 13 + r := by
    unfold posAt
    split_ifs <;> omega
  rw [effectAt_pos, h]

theorem sleeping_effectAt (e k : Nat) :
    effectAt e k = Effect.println "Sleeping..." ↔ 13 ≤ k ∧ (k - 13) % 7 = 3 := by
  have hlt := posAt_lt k
  have hp : posAt k = 16 ↔ 13 ≤ k ∧ (k - 13) % 7 = 3 := by
    unfold posAt
    split_ifs <;> omega
  rw [effectAt_pos, ← hp]
  generalize posAt k = p at hlt ⊢
  interval_cases p <;> simp [pcOfIndex, callAt]

theorem deepSleep_effectAt (e k : Nat) :
    effectAt e k = Effect.deepSleep ↔ 13 ≤ k ∧ (k - 13) % 7 = 6 := by
  have hlt := posAt_lt k
  have hp : posAt k = 19 ↔ 13 ≤ k ∧ (k - 13) % 7 = 6 := by
    unfold posAt
    split_ifs <;> omega
  rw [effectAt_pos, ← hp]
  generalize posAt k = p at hlt ⊢
  interval_cases p <;> simp [pcOfIndex, callAt]

theorem trace_iteration (inputs : Nat → Input) (led0 : Level) (created : Option Nat)
    (q : Nat) :
    trace inputs led0 created (13 + 7 * q + 7) =
      trace inputs led0 created (13 + 7 * q) ++ loopBody := by
  have h0 := effectAt_loop ((inputs 11).epoch % UINT32_MOD) q 0 (by omega)
  have h1 := effectAt_loop ((inputs 11).epoch % UINT32_MOD) q 1 (by omega)
  have h2 := effectAt_loop ((inputs 11).epoch % UINT32_MOD) q 2 (by omega)
  have h3 := effectAt_loop ((inputs 11).epoch % UINT32_MOD) q 3 (by omega)
  have h4 := effectAt_loop ((inputs 11).epoch % UINT32_MOD) q 4 (by omega)
  have h5 := effectAt_loop ((inputs 11).epoch % UINT32_MOD) q 5 (by omega)
  have h6 := effectAt_loop ((inputs 11).epoch % UINT32_MOD) q 6 (by omega)
  rw [show 13 + 7 * q + 7 = 13 + 7 * q + 6 + 1 from rfl, trace_succ, h6,
    show 13 + 7 * q + 6 = 13 + 7 * q + 5 + 1 from rfl, trace_succ, h5,
    show 13 + 7 * q + 5 = 13 + 7 * q + 4 + 1 from rfl, trace_succ, h4,
    show 13 + 7 * q + 4 = 13 + 7 * q + 3 + 1 from rfl, trace_succ, h3,
    show 13 + 7 * q + 3 = 13 + 7 * q + 2 + 1 from rfl, trace_succ, h2,
    show 13 + 7 * q + 2 = 13 + 7 * q + 1 + 1 from rfl, trace_succ, h1,
    trace_succ]
  rw [Nat.add_zero] at h0
  rw [h0]
  simp [loopBody, pcOfIndex, callAt]

theorem between_trace (inputs : Nat → Input) (led0 : Level) (created : Option Nat)
    (n i : Nat) (h : i + 3 ≤ n) :
    between (trace inputs led0 created n) i (i + 3) =
      [effectAt ((inputs 11).epoch % UINT32_MOD) (i + 1),
       effectAt ((inputs 11).epoch % UINT32_MOD) (i + 2)] := by
  unfold between
  rw [trace_take _ _ _ _ _ h, trace_succ, trace_succ, List.append_assoc]
  exact List.drop_left' (by rw [trace_eq]; simp)

/-- C8. In every trace: between a "Running..." line and the first "Sleeping..." line
after it the worker requests exactly one delay, of 3000 ms; between a "Sleeping..." line
and the first `deepSleep` call after it exactly one delay, of 3000 ms; every completed
loop iteration consists of the seven calls of `loopBody`; and between
"Starting thread..." (call 0, state BOOTING) and the first ARMING call (call 2) exactly
one delay, of 3000 ms. -/
theorem delays_are_3000_ms (inputs : Nat → Input) (led0 : Level) (created : Option Nat)
    (n i j q : Nat) :
    (i < j →
      (trace inputs led0 created n)[i]? = some (Effect.println "Running...") →
      (trace inputs led0 created n)[j]? = some (Effect.println "Sleeping...") →
      (∀ k, i < k → k < j →
        (trace inputs led0 created n)[k]? ≠ some (Effect.println "Sleeping...")) →
      delays (between (trace inputs led0 created n) i j) = [3000]) ∧
    (i < j →
      (trace inputs led0 created n)[i]? = some (Effect.println "Sleeping...") →
      (trace inputs led0 created n)[j]? = some Effect.deepSleep →
      (∀ k, i < k → k < j →
        (trace inputs led0 created n)[k]? ≠ some Effect.deepSleep) →
      delays (between (trace inputs led0 created n) i j) = [3000]) ∧
    (13 + 7 * q + 7 ≤ n →
      ((trace inputs led0 created n).drop (13 + 7 * q)).take 7 = loopBody) ∧
    (3 ≤ n →
      (trace inputs led0 created n)[0]? = some (Effect.println "Starting thread...") ∧
      (trace inputs led0 created n)[1]? = some (Effect.osDelay 3000) ∧
      (trace inputs led0 created n)[2]? =
        some (Effect.pinMode Pin.LED_BUILTIN PinMode.OUTPUT) ∧
      workerState (stateAfter inputs led0 created 1).pc = WorkerState.BOOTING ∧
      workerState (stateAfter inputs led0 created 2).pc = WorkerState.ARMING ∧
      delays (between (trace inputs led0 created n) 0 2) = [3000]) := by
  refine ⟨?_, ?_, ?_, ?_⟩
  · intro hij hi hj hfirst
    obtain ⟨_, hi2⟩ := trace_getElem_some _ _ _ _ _ _ hi
    obtain ⟨hjn, hj2⟩ := trace_getElem_some _ _ _ _ _ _ hj
    have hi3 := (running_effectAt _ i).1 hi2
    have hj3 := (sleeping_effectAt _ j).1 hj2
    have hj4 : j = i + 3 := by
      by_contra hne
      have hlt : i + 3 < j := by omega
      refine hfirst (i + 3) (by omega) hlt ?_
      rw [trace_getElem_opt, if_pos (by omega)]
      congr 1
      exact (sleeping_effectAt _ (i + 3)).2 (by omega)
    subst hj4
    obtain ⟨q2, rfl⟩ : ∃ q2, i = 13 + 7 * q2 := ⟨(i - 13) / 7, by omega⟩
    rw [between_trace _ _ _ _ _ (by omega), effectAt_loop _ q2 1 (by omega),
      effectAt_loop _ q2 2 (by omega)]
    rfl
  · intro hij hi hj hfirst
    obtain ⟨_, hi2⟩ := trace_getElem_some _ _ _ _ _ _ hi
    obtain ⟨hjn, hj2⟩ := trace_getElem_some _ _ _ _ _ _ hj
    have hi3 := (sleeping_effectAt _ i).1 hi2
    have hj3 := (deepSleep_effectAt _ j).1 hj2
    have hj4 : j = i + 3 := by
      by_contra hne
      have hlt : i + 3 < j := by omega
      refine hfirst (i + 3) (by omega) hlt ?_
      rw [trace_getElem_opt, if_pos (by omega)]
      congr 1
      exact (deepSleep_effectAt _ (i + 3)).2 (by omega)
    subst hj4
    obtain ⟨q2, rfl⟩ : ∃ q2, i = 13 + 7 * q2 + 3 := ⟨(i - 13) / 7, by omega⟩
    rw [between_trace _ _ _ _ _ (by omega), effectAt_loop _ q2 4 (by omega),
      effectAt_loop _ q2 5 (by omega)]
    rfl
  · intro hn
    rw [List.take_drop, trace_take _ _ _ _ _ hn, trace_iteration]
    exact List.drop_left' (by rw [trace_eq]; simp)
  · intro hn
    refine ⟨?_, ?_, ?_, ?_, ?_, ?_⟩
    · rw [trace_getElem_opt, if_pos (by omega)]
      rfl
    · rw [trace_getElem_opt, if_pos (by omega)]
      rfl
    · rw [trace_getElem_opt, if_pos (by omega)]
      rfl
    · rw [stateAfter_pc]
      rfl
    · rw [stateAfter_pc]
      rfl
    · unfold between
      rw [trace_take _ _ _ _ _ (by omega), trace_eq]
      rfl

/-- Witness for C8: in the first 27 calls of a run (ARMING and two loop iterations),
"Running..." is call 13 and "Sleeping..." call 16, `deepSleep` is call 19, and the second
iteration is calls 20 to 26. -/
theorem delays_are_3000_ms_witness :
    (13 < 16 ∧
      (trace twoCycleInputs Level.LOW (some 1) 27)[13]? =
        some (Effect.println "Running...") ∧
      (trace twoCycleInputs Level.LOW (some 1) 27)[16]? =
        some (Effect.println "Sleeping...") ∧
      delays (between (trace twoCycleInputs Level.LOW (some 1) 27) 13 16) = [3000]) ∧
    (16 < 19 ∧
      (trace twoCycleInputs Level.LOW (some 1) 27)[19]? = some Effect.deepSleep ∧
      delays (between (trace twoCycleInputs Level.LOW (some 1) 27) 16 19) = [3000]) ∧
    (13 + 7 * 1 + 7 ≤ 27 ∧
      ((trace twoCycleInputs Level.LOW (some 1) 27).drop (13 + 7 * 1)).take 7 = loopBody) ∧
    (3 ≤ 27 ∧ delays (between (trace twoCycleInputs Level.LOW (some 1) 27) 0 2) = [3000]) :=
  ⟨⟨by decide, by decide, by decide,
    (delays_are_3000_ms twoCycleInputs Level.LOW (some 1) 27 13 16 1).1
      (by decide) (by decide) (by decide)
      (fun k h1 h2 => by
        have hk : k = 14 ∨ k = 15 := by omega
        rcases hk with rfl | rfl <;> decide)⟩,
   ⟨by decide, by decide,
    (delays_are_3000_ms twoCycleInputs Level.LOW (some 1) 27 16 19 1).2.1
      (by decide) (by decide) (by decide)
      (fun k h1 h2 => by
        have hk : k = 17 ∨ k = 18 := by omega
        rcases hk with rfl | rfl <;> decide)⟩,
   ⟨by decide,
    (delays_are_3000_ms twoCycleInputs Level.LOW (some 1) 27 13 16 1).2.2.1 (by decide)⟩,
   ⟨by decide,
    ((delays_are_3000_ms twoCycleInputs Level.LOW (some 1) 27 13 16 1).2.2.2
      (by decide)).2.2.2.2.2⟩⟩

end LowPowerDemo
